import Mathlib

/-!
Shallow embedding of `src/main.py` (fast-api-pos): a FastAPI + SQLModel CRUD
service over three tables (Team, User, Item) backed by SQLite.

Modelling conventions:
* A table row is a structure whose `id` is the SQLite-generated rowid
  (a positive `Nat`); the database is the triple of row lists in insertion
  order.  SQLite assigns `max rowid + 1` to a fresh row.
* An HTTP outcome is `Except HErr body`.  `HErr.notFound` is the handler's
  `HTTPException(status_code=404, ...)`; `HErr.unprocessable` is the
  framework's automatic 422 on request validation; `HErr.internal` is an
  unhandled Python exception surfacing as HTTP 500.
* Python `Decimal` is embedded as its `as_tuple()` form (sign, digit tuple,
  exponent), which is what pydantic's `max_digits` / `decimal_places`
  validation inspects.
* Update payloads use `Option` for set-vs-unset, mirroring pydantic's
  `model_dump(exclude_unset=True)`.  An explicit JSON `null` supplied for a
  column the table declares non-nullable (e.g. `{"name": null}` on Team)
  is outside the model, as is `{"password": null}` (which would crash in
  `pbkdf2_sha256.hash(None)` before touching the store).
* `pbkdf2_sha256.hash` is a salted external primitive; handlers that hash
  take it as an explicit function parameter ` hash_password`.
-/

set_option autoImplicit false

namespace FastApiPos

/-- HTTP error outcomes of an endpoint. -/
inductive HErr where
  /-- `HTTPException(status_code=404, detail=...)`. -/
  | notFound (detail : String)
  /-- FastAPI request-validation failure (HTTP 422). -/
  | unprocessable
  /-- An unhandled Python exception (HTTP 500). -/
  | internal (msg : String)
  deriving Repr, DecidableEq

/-- Python `Decimal` in `as_tuple()` form: sign, digit tuple, exponent.
`sign = true` means negative. -/
structure PyDecimal where
  sign : Bool
  digits : List Nat
  exponent : Int
  deriving Repr, DecidableEq

/-- `Decimal(0)`: digit tuple `(0,)`, exponent `0`. -/
def PyDecimal.zero : PyDecimal := ⟨false, [0], 0⟩

/-- pydantic's digit bookkeeping for a `Decimal`: returns
(total digits, decimal places) exactly as pydantic computes them from the
`as_tuple()` form before checking `max_digits` / `decimal_places`. -/
def decimalDigitsPlaces (d : PyDecimal) : Nat × Nat :=
  if d.exponent ≥ 0 then
    (d.digits.length + d.exponent.toNat, 0)
  else
    let ae := (-d.exponent).toNat
    if ae > d.digits.length then (ae, ae)
    else (d.digits.length, ae)

/-- The `Field(max_digits=5, decimal_places=3)` constraint on
`ItemBase.price`. -/
def priceValid (d : PyDecimal) : Bool :=
  let p := decimalDigitsPlaces d
  decide (p.1 ≤ 5 ∧ p.2 ≤ 3)

/-! ## Rows (`table=True` models) -/

/-- A row of table `team` (`class Team`). -/
structure TeamRow where
  id : Nat
  name : String
  headquarters : String
  deriving Repr, DecidableEq

/-- A row of table `user` (`class User`). -/
structure UserRow where
  id : Nat
  name : String
  email : Option String
  age : Option Int
  team_id : Option Nat
  hashed_password : String
  deriving Repr, DecidableEq

/-- A row of table `item` (`class Item`). -/
structure ItemRow where
  id : Nat
  name : String
  price : PyDecimal
  is_offer : Bool
  units : Int
  units_measurement : String
  deriving Repr, DecidableEq

/-! ## Request/response models -/

/-- `class TeamCreate(TeamBase)`. -/
structure TeamCreate where
  name : String
  headquarters : String
  deriving Repr, DecidableEq

/-- `class TeamPublic(TeamBase)`: `id: int` plus the base fields. -/
structure TeamPublic where
  id : Nat
  name : String
  headquarters : String
  deriving Repr, DecidableEq

/-- `class TeamUpdate`: every field optional; `none` = not supplied
(absent from `model_dump(exclude_unset=True)`). -/
structure TeamUpdate where
  name : Option String := none
  headquarters : Option String := none
  deriving Repr, DecidableEq

/-- `class UserCreate(UserBase)`: base fields plus plaintext `password`. -/
structure UserCreate where
  name : String
  email : Option String := none
  age : Option Int := none
  team_id : Option Nat := none
  password : String
  deriving Repr, DecidableEq

/-- `class UserPublic(UserBase)`: `id: int` plus the base fields — neither
`password` nor `hashed_password` is a field of this model. -/
structure UserPublic where
  id : Nat
  name : String
  email : Option String
  age : Option Int
  team_id : Option Nat
  deriving Repr, DecidableEq

/-- `class UserUpdate`: outer `Option` is set-vs-unset; for the nullable
columns `email`, `age`, `team_id` the inner `Option` is the stored value,
so an explicit null (`some none`) is representable. -/
structure UserUpdate where
  name : Option String := none
  email : Option (Option String) := none
  age : Option (Option Int) := none
  password : Option String := none
  team_id : Option (Option Nat) := none
  deriving Repr, DecidableEq

/-- `class ItemCreate(ItemBase)`.  `price` defaults to `Decimal(0)` from
`Field(default=0, ...)`; `is_offer` defaults to `False`. -/
structure ItemCreate where
  name : String
  price : PyDecimal := PyDecimal.zero
  is_offer : Bool := false
  units : Int
  units_measurement : String
  deriving Repr, DecidableEq

/-- `class ItemPublic(ItemBase)`. -/
structure ItemPublic where
  id : Nat
  name : String
  price : PyDecimal
  is_offer : Bool
  units : Int
  units_measurement : String
  deriving Repr, DecidableEq

/-- `class ItemUpdate`: every field optional, and — unlike `ItemBase` —
`price: Decimal | None = None` carries no `max_digits` / `decimal_places`
constraint. -/
structure ItemUpdate where
  name : Option String := none
  price : Option PyDecimal := none
  is_offer : Option Bool := none
  units : Option Int := none
  units_measurement : Option String := none
  deriving Repr, DecidableEq

/-- The `{"ok": True}` body returned by the delete handlers. -/
structure OkBody where
  ok : Bool
  deriving Repr, DecidableEq

/-! ## Database state -/

/-- The SQLite database: the three tables, rows in insertion order. -/
structure DB where
  teams : List TeamRow := []
  users : List UserRow := []
  items : List ItemRow := []
  deriving Repr, DecidableEq

/-- SQLite's next rowid for a table: one more than the largest in use. -/
def nextId (ids : List Nat) : Nat := ids.foldr max 0 + 1

/-- `session.get(Team, team_id)`. -/
def DB.getTeam (db : DB) (i : Nat) : Option TeamRow :=
  db.teams.find? (fun t => t.id == i)

/-- `session.get(User, user_id)`. -/
def DB.getUser (db : DB) (i : Nat) : Option UserRow :=
  db.users.find? (fun u => u.id == i)

/-- `session.get(Item, item_id)`. -/
def DB.getItem (db : DB) (i : Nat) : Option ItemRow :=
  db.items.find? (fun x => x.id == i)

/-- SQL `UPDATE`: replace the row with the given id, keeping its position. -/
def replaceById {ρ : Type} (getId : ρ → Nat) (i : Nat) (row : ρ)
    (rows : List ρ) : List ρ :=
  rows.map (fun r => if getId r == i then row else r)

/-- `select(T).offset(offset).limit(limit)` against SQLite: a negative
`OFFSET` behaves as 0 and a negative `LIMIT` means no limit. -/
def listSlice {ρ : Type} (rows : List ρ) (offset limit : Int) : List ρ :=
  let ys := rows.drop offset.toNat
  if limit < 0 then ys else ys.take limit.toNat

/-- The framework's `Query(default=100, le=100)` bound on `limit`: values
above 100 are rejected with a 422 before the handler runs. -/
def limitOk (limit : Int) : Bool := decide (limit ≤ 100)

/-! ## Serialization (`response_model=...`)

FastAPI validates the handler's return value against the declared
`response_model`.  The two user read endpoints declare the wrong one
(`read_users` declares `UserPublic`, `read_user` declares
`List[UserPublic]`), so the value produced by the handler fails that
validation and the request dies with a `ResponseValidationError`
(HTTP 500).  `UserBody` is the value a user read handler hands back to the
framework; the two `fit...` functions are the response-model validation. -/

/-- What a user read handler returns to the framework: one row or a list. -/
inductive UserBody where
  | single (u : UserRow)
  | many (us : List UserRow)
  deriving Repr, DecidableEq

/-- Project a stored user row to its public representation. -/
def UserRow.toPublic (u : UserRow) : UserPublic :=
  ⟨u.id, u.name, u.email, u.age, u.team_id⟩

/-- Project a stored team row to its public representation. -/
def TeamRow.toPublic (t : TeamRow) : TeamPublic :=
  ⟨t.id, t.name, t.headquarters⟩

/-- Project a stored item row to its public representation. -/
def ItemRow.toPublic (x : ItemRow) : ItemPublic :=
  ⟨x.id, x.name, x.price, x.is_offer, x.units, x.units_measurement⟩

/-- Validation of a handler value against `response_model=UserPublic`:
a list is not a single object, so it fails. -/
def fitUserPublic : UserBody → Except HErr UserPublic
  | .single u => .ok u.toPublic
  | .many _ => .error (.internal "ResponseValidationError")

/-- Validation of a handler value against `response_model=List[UserPublic]`:
a single object is not a list, so it fails. -/
def fitUserPublicList : UserBody → Except HErr (List UserPublic)
  | .many us => .ok (us.map UserRow.toPublic)
  | .single _ => .error (.internal "ResponseValidationError")

/-! ## Team path operations -/

/-- `POST /teams/` (`create_team`): insert the validated payload, return
the refreshed row. -/
def create_team (db : DB) (team : TeamCreate) : DB × TeamPublic :=
  let i := nextId (db.teams.map TeamRow.id)
  let row : TeamRow := ⟨i, team.name, team.headquarters⟩
  ({ db with teams := db.teams ++ [row] }, row.toPublic)

/-- `GET /teams/` (`read_teams`): offset/limit slice of the table;
`limit` above 100 is rejected by `Query(default=100, le=100)`. -/
def read_teams (db : DB) (offset limit : Int) :
    Except HErr (List TeamPublic) :=
  if limitOk limit then
    .ok ((listSlice db.teams offset limit).map TeamRow.toPublic)
  else .error .unprocessable

/-- `GET /teams/{team_id}` (`read_team`). -/
def read_team (db : DB) (team_id : Nat) : Except HErr TeamPublic :=
  match db.getTeam team_id with
  | none => .error (.notFound "Team not found")
  | some t => .ok t.toPublic

/-- `PATCH /teams/{team_id}` (`update_team`): 404 when absent, otherwise
`setattr` each key of `model_dump(exclude_unset=True)` onto the row. -/
def update_team (db : DB) (team_id : Nat) (team : TeamUpdate) :
    DB × Except HErr TeamPublic :=
  match db.getTeam team_id with
  | none => (db, .error (.notFound "Team not found"))
  | some row =>
      let row' : TeamRow :=
        { row with
          name := team.name.getD row.name
          headquarters := team.headquarters.getD row.headquarters }
      ({ db with teams := replaceById TeamRow.id team_id row' db.teams },
       .ok row'.toPublic)

/-- `DELETE /teams/{team_id}` (`delete_team`): 404 when absent, otherwise
delete the row and answer `{"ok": True}`. -/
def delete_team (db : DB) (team_id : Nat) : DB × Except HErr OkBody :=
  match db.getTeam team_id with
  | none => (db, .error (.notFound "Team not found"))
  | some _ =>
      ({ db with teams := db.teams.filter (fun t => t.id != team_id) },
       .ok ⟨true⟩)

/-! ## User path operations -/

/-- `POST /users/` (`create_user`): hash the plaintext password, validate
into a `User` row with `hashed_password` from `extra_data`, insert, and
return the refreshed row through `response_model=UserPublic`. -/
def create_user ( hash_password : String → String) (db : DB)
    (user : UserCreate) : DB × UserPublic :=
  let i := nextId (db.users.map UserRow.id)
  let row : UserRow :=
    ⟨i, user.name, user.email, user.age, user.team_id,
      hash_password user.password⟩
  ({ db with users := db.users ++ [row] }, row.toPublic)

/-- `GET /users/` (`read_users`): the handler selects an offset/limit slice,
but the decorator declares `response_model=UserPublic` (not
`List[UserPublic]`), so response validation fails on the list. -/
def read_users (db : DB) (offset limit : Int) : Except HErr UserPublic :=
  if limitOk limit then
    fitUserPublic (.many (listSlice db.users offset limit))
  else .error .unprocessable

/-- `GET /users/{user_id}` (`read_user`): 404 when absent; when present the
single row fails validation against the declared
`response_model=List[UserPublic]`. -/
def read_user (db : DB) (user_id : Nat) : Except HErr (List UserPublic) :=
  match db.getUser user_id with
  | none => .error (.notFound "No User found")
  | some u => fitUserPublicList (.single u)

/-- `PATCH /users/{user_id}` (`update_user`): the absent branch calls
`HTTPException(satus_response=404, ...)` — a misspelled keyword, so the
constructor raises `TypeError` instead of a 404.  When present,
`sqlmodel_update(user_data, update=extra_data)` sets only keys that are
fields of `User`: the plaintext `password` key is skipped, and
`hashed_password` from `extra_data` is applied when a password was set. -/
def update_user ( hash_password : String → String) (db : DB)
    (user_id : Nat) (user : UserUpdate) : DB × Except HErr UserPublic :=
  match db.getUser user_id with
  | none =>
      (db, .error (.internal
        "TypeError: HTTPException got an unexpected keyword argument"))
  | some row =>
      let row' : UserRow :=
        { row with
          name := user.name.getD row.name
          email := user.email.getD row.email
          age := user.age.getD row.age
          team_id := user.team_id.getD row.team_id
          hashed_password :=
            match user.password with
            | some p => hash_password p
            | none => row.hashed_password }
      ({ db with users := replaceById UserRow.id user_id row' db.users },
       .ok row'.toPublic)

/-- `DELETE /users/{user_id}` (`delete_user`): the guard is
`if not User:` — it tests the class, which is always truthy, so the 404
branch is dead; on an absent id `session.delete(None)` raises
`UnmappedInstanceError` and nothing is removed. -/
def delete_user (db : DB) (user_id : Nat) : DB × Except HErr OkBody :=
  match db.getUser user_id with
  | none => (db, .error (.internal "UnmappedInstanceError"))
  | some _ =>
      ({ db with users := db.users.filter (fun u => u.id != user_id) },
       .ok ⟨true⟩)

/-! ## Item path operations -/

/-- `POST /items/` (`create_item`): the body is validated as `ItemCreate`,
whose inherited `price` field carries `max_digits=5, decimal_places=3`;
an out-of-bounds price is a 422 before the handler runs. -/
def create_item (db : DB) (item : ItemCreate) : DB × Except HErr ItemPublic :=
  if priceValid item.price then
    let i := nextId (db.items.map ItemRow.id)
    let row : ItemRow :=
      ⟨i, item.name, item.price, item.is_offer, item.units,
        item.units_measurement⟩
    ({ db with items := db.items ++ [row] }, .ok row.toPublic)
  else (db, .error .unprocessable)

/-- `GET /items/` (`read_items`). -/
def read_items (db : DB) (offset limit : Int) :
    Except HErr (List ItemPublic) :=
  if limitOk limit then
    .ok ((listSlice db.items offset limit).map ItemRow.toPublic)
  else .error .unprocessable

/-- `GET /items/{item_id}` (`read_item`). -/
def read_item (db : DB) (item_id : Nat) : Except HErr ItemPublic :=
  match db.getItem item_id with
  | none => .error (.notFound "No Item found")
  | some x => .ok x.toPublic

/-- `PATCH /items/{item_id}` (`update_item`): 404 when absent, otherwise
`sqlmodel_update` over `model_dump(exclude_unset=True)`.  `ItemUpdate.price`
carries no digit constraints, so any price passes request validation. -/
def update_item (db : DB) (item_id : Nat) (item : ItemUpdate) :
    DB × Except HErr ItemPublic :=
  match db.getItem item_id with
  | none => (db, .error (.notFound "Item not found"))
  | some row =>
      let row' : ItemRow :=
        { row with
          name := item.name.getD row.name
          price := item.price.getD row.price
          is_offer := item.is_offer.getD row.is_offer
          units := item.units.getD row.units
          units_measurement :=
            item.units_measurement.getD row.units_measurement }
      ({ db with items := replaceById ItemRow.id item_id row' db.items },
       .ok row'.toPublic)

/-- `DELETE /items/{item_id}` (`delete_item`): the guard is
`if not Item:` — it tests the class, which is always truthy, so the 404
branch is dead; on an absent id `session.delete(None)` raises
`UnmappedInstanceError` and nothing is removed. -/
def delete_item (db : DB) (item_id : Nat) : DB × Except HErr OkBody :=
  match db.getItem item_id with
  | none => (db, .error (.internal "UnmappedInstanceError"))
  | some _ =>
      ({ db with items := db.items.filter (fun x => x.id != item_id) },
       .ok ⟨true⟩)

/-- A list request with omitted query parameters: `offset` defaults to 0
and `limit` to 100 (`Query(default=100, le=100)`). -/
def read_teams_request (db : DB) (offset limit : Option Int) :
    Except HErr (List TeamPublic) :=
  read_teams db (offset.getD 0) (limit.getD 100)

/-- `GET /items/` with omitted query parameters defaulted the same way. -/
def read_items_request (db : DB) (offset limit : Option Int) :
    Except HErr (List ItemPublic) :=
  read_items db (offset.getD 0) (limit.getD 100)

/-! ## Helper lemmas and concrete fixtures -/

/-- Replacing a row by itself, when no other row shares its id, is a no-op. -/
theorem replaceById_self {ρ : Type} (getId : ρ → Nat) (i : Nat) (row : ρ)
    (rows : List ρ) (hinj : ∀ r ∈ rows, getId r = i → r = row) :
    replaceById getId i row rows = rows := by
  unfold replaceById
  conv_rhs => rw [← List.map_id rows]
  apply List.map_congr_left
  intro r hr
  by_cases h : getId r = i
  · simp [h, hinj r hr h]
  · simp [h]

/-- From a `find?` hit on id `i` in a table with no duplicate ids, every row
with id `i` is the found one. -/
theorem find?_id_all_eq {ρ : Type} (getId : ρ → Nat) (rows : List ρ)
    (i : Nat) (row : ρ) (hnd : (rows.map getId).Nodup)
    (hfind : rows.find? (fun r => getId r == i) = some row) :
    ∀ r ∈ rows, getId r = i → r = row := by
  intro r hr hri
  have hmem : row ∈ rows := List.mem_of_find?_eq_some hfind
  have hid : getId row = i := by
    have := List.find?_some hfind
    simpa using this
  exact List.inj_on_of_nodup_map hnd hr hmem (by rw [hri, hid])

/-- The empty database (fresh `database.db`). -/
def dbEmpty : DB := {}

/-- A sample team row. -/
def teamRow1 : TeamRow := ⟨1, "Avengers", "NYC"⟩

/-- A sample user row. -/
def userRow1 : UserRow := ⟨1, "Ada", some "ada@pos.dev", some 30, some 1, "h0"⟩

/-- A sample item row. -/
def itemRow1 : ItemRow := ⟨1, "nails", PyDecimal.zero, false, 10, "kg"⟩

/-- A database holding one row per table. -/
def db1 : DB := ⟨[teamRow1], [userRow1], [itemRow1]⟩

/-- A price with 9 significant digits and 3 decimal places (`123456.789`),
violating `max_digits=5`. -/
def bigPrice : PyDecimal := ⟨false, [1, 2, 3, 4, 5, 6, 7, 8, 9], -3⟩

/-! ## Claims -/

/-- C1: the spec says every DELETE on a missing primary key fails with 404
and removes nothing, and on a present key removes the row and returns
`{ok: true}`.  `delete_team` conforms, but `delete_user` and `delete_item`
guard with `if not User:` / `if not Item:` — a truthiness test on the
class instead of the fetched instance — so the 404 branch is dead and a
missing id reaches `session.delete(None)`, an unhandled error (HTTP 500),
not a 404.  This theorem evaluates the code at the failing inputs and at
the conforming ones. -/
theorem c1_delete_missing_key_is_500_not_404 :
    delete_user dbEmpty 1 = (dbEmpty, .error (.internal "UnmappedInstanceError"))
    ∧ delete_item dbEmpty 1 = (dbEmpty, .error (.internal "UnmappedInstanceError"))
    ∧ delete_team dbEmpty 1 = (dbEmpty, .error (.notFound "Team not found"))
    ∧ delete_team db1 1 = ({ db1 with teams := [] }, .ok ⟨true⟩)
    ∧ delete_user db1 1 = ({ db1 with users := [] }, .ok ⟨true⟩)
    ∧ delete_item db1 1 = ({ db1 with items := [] }, .ok ⟨true⟩) := by
  refine ⟨rfl, rfl, rfl, ?_, ?_, ?_⟩ <;> simp [delete_team, delete_user,
    delete_item, DB.getTeam, DB.getUser, DB.getItem, db1, dbEmpty,
    teamRow1, userRow1, itemRow1]

/-- C2: the spec says every PATCH on a missing primary key fails with 404
and no other error.  `update_team` and `update_item` conform, but
`update_user` raises the exception as
`HTTPException(satus_response=404, ...)` — a misspelled keyword argument —
so the constructor itself raises `TypeError` and the request fails with an
unhandled 500 instead of a 404. -/
theorem c2_patch_missing_key_user_is_typeerror :
    update_user (fun p => p) dbEmpty 1 {} =
      (dbEmpty, .error (.internal
        "TypeError: HTTPException got an unexpected keyword argument"))
    ∧ update_team dbEmpty 1 {} = (dbEmpty, .error (.notFound "Team not found"))
    ∧ update_item dbEmpty 1 {} = (dbEmpty, .error (.notFound "Item not found")) :=
  ⟨rfl, rfl, rfl⟩

/-- C3: the spec says GET /users/{id} on an existing id returns 200 with
the single public record.  The decorator declares
`response_model=List[UserPublic]` for this single-record endpoint, so the
returned row fails response validation and every hit is an HTTP 500; only
the 404 half of the claim holds. -/
theorem c3_read_user_existing_id_is_500 :
    read_user db1 1 = .error (.internal "ResponseValidationError")
    ∧ read_user db1 2 = .error (.notFound "No User found")
    ∧ read_user dbEmpty 1 = .error (.notFound "No User found") :=
  ⟨rfl, rfl, rfl⟩

/-- C4: the spec says GET /users/ returns 200 with a list like
GET /teams/.  The decorator declares `response_model=UserPublic` (a single
object) for this list endpoint, so the handler's list fails response
validation and every request — even on an empty table — is an HTTP 500,
while GET /teams/ succeeds. -/
theorem c4_read_users_always_500 :
    read_users dbEmpty 0 100 = .error (.internal "ResponseValidationError")
    ∧ read_users db1 0 100 = .error (.internal "ResponseValidationError")
    ∧ read_users db1 0 1 = .error (.internal "ResponseValidationError")
    ∧ read_teams db1 0 100 = .ok [teamRow1.toPublic] :=
  ⟨rfl, rfl, rfl, rfl⟩

/-- C5: on create, the stored row's `hashed_password` is the hash of the
supplied plaintext and every other stored field comes from the
non-password payload fields; the create response is invariant under the
password.  On update with a password set, the stored row is likewise fully
characterised with `hashed_password = hash p` (the plaintext `password`
key is skipped by `sqlmodel_update` because it is not a `User` field), and
the update response is invariant under the password.  Every user response
factors through `UserRow.toPublic`, which ignores `hashed_password`, so no
response carries the password or the stored hash. -/
theorem c5_password_hashed_and_absent_from_responses
    (hashF : String → String) :
    (∀ (db : DB) (uc : UserCreate), ((create_user hashF db uc).1).users
        = db.users ++ [⟨nextId (db.users.map UserRow.id), uc.name, uc.email,
            uc.age, uc.team_id, hashF uc.password⟩])
    ∧ (∀ (db : DB) (uc : UserCreate) (p p' : String),
        (create_user hashF db { uc with password := p }).2
          = (create_user hashF db { uc with password := p' }).2)
    ∧ (∀ (db : DB) (uid : Nat) (uu : UserUpdate) (p : String)
        (row : UserRow), db.getUser uid = some row →
        ((update_user hashF db uid { uu with password := some p }).1).users
          = replaceById UserRow.id uid ⟨row.id, uu.name.getD row.name,
              uu.email.getD row.email, uu.age.getD row.age,
              uu.team_id.getD row.team_id, hashF p⟩ db.users)
    ∧ (∀ (db : DB) (uid : Nat) (uu : UserUpdate) (p p' : String),
        (update_user hashF db uid { uu with password := some p }).2
          = (update_user hashF db uid { uu with password := some p' }).2)
    ∧ (∀ (u : UserRow) (h : String),
        ({ u with hashed_password := h } : UserRow).toPublic = u.toPublic) := by
  refine ⟨fun db uc => rfl, fun db uc p p' => rfl, ?_, ?_, fun u h => rfl⟩
  · intro db uid uu p row hrow
    simp only [update_user, hrow]
  · intro db uid uu p p'
    unfold update_user
    cases db.getUser uid with
    | none => rfl
    | some row => rfl

/-- C5 witness: updating user 1 of the sample database with only a
password set stores exactly the hash of that password and changes nothing
else. -/
theorem c5_witness :
    ((update_user (fun s => "#" ++ s) db1 1
        { password := some "pw" }).1).users
      = replaceById UserRow.id 1 ⟨1, "Ada", some "ada@pos.dev", some 30,
          some 1, "#" ++ "pw"⟩ db1.users :=
  (c5_password_hashed_and_absent_from_responses
    (fun s => "#" ++ s)).2.2.1 db1 1 {} "pw" userRow1 rfl

/-- C6: PATCH on an existing record overwrites exactly the fields set in
the payload — each stored field is the payload's value when set and the
prior value when unset, for Team, Item and User alike — and a PATCH with
an empty payload leaves the database unchanged (stated under uniqueness
of primary keys, which SQLite enforces). -/
theorem c6_patch_overwrites_only_set_fields :
    (∀ (db : DB) (i : Nat) (tu : TeamUpdate) (row : TeamRow),
        db.getTeam i = some row →
        ((update_team db i tu).1).teams
          = replaceById TeamRow.id i ⟨row.id, tu.name.getD row.name,
              tu.headquarters.getD row.headquarters⟩ db.teams
        ∧ (update_team db i tu).2
          = .ok ⟨row.id, tu.name.getD row.name,
              tu.headquarters.getD row.headquarters⟩)
    ∧ (∀ (db : DB) (i : Nat) (xu : ItemUpdate) (row : ItemRow),
        db.getItem i = some row →
        ((update_item db i xu).1).items
          = replaceById ItemRow.id i ⟨row.id, xu.name.getD row.name,
              xu.price.getD row.price, xu.is_offer.getD row.is_offer,
              xu.units.getD row.units,
              xu.units_measurement.getD row.units_measurement⟩ db.items
        ∧ (update_item db i xu).2
          = .ok ⟨row.id, xu.name.getD row.name, xu.price.getD row.price,
              xu.is_offer.getD row.is_offer, xu.units.getD row.units,
              xu.units_measurement.getD row.units_measurement⟩)
    ∧ (∀ (hashF : String → String) (db : DB) (i : Nat) (uu : UserUpdate)
        (row : UserRow), db.getUser i = some row → uu.password = none →
        ((update_user hashF db i uu).1).users
          = replaceById UserRow.id i ⟨row.id, uu.name.getD row.name,
              uu.email.getD row.email, uu.age.getD row.age,
              uu.team_id.getD row.team_id, row.hashed_password⟩ db.users)
    ∧ (∀ (db : DB) (i : Nat) (row : TeamRow),
        (db.teams.map TeamRow.id).Nodup → db.getTeam i = some row →
        update_team db i {} = (db, .ok row.toPublic))
    ∧ (∀ (db : DB) (i : Nat) (row : ItemRow),
        (db.items.map ItemRow.id).Nodup → db.getItem i = some row →
        update_item db i {} = (db, .ok row.toPublic)) := by
  refine ⟨?_, ?_, ?_, ?_, ?_⟩
  · intro db i tu row hrow
    exact ⟨by simp only [update_team, hrow],
      by simp only [update_team, hrow, TeamRow.toPublic]⟩
  · intro db i xu row hrow
    exact ⟨by simp only [update_item, hrow],
      by simp only [update_item, hrow, ItemRow.toPublic]⟩
  · intro hashF db i uu row hrow hpw
    simp only [update_user, hrow, hpw]
  · intro db i row hnd hrow
    simp only [update_team, hrow, Option.getD_none]
    have hall := find?_id_all_eq TeamRow.id db.teams i row hnd hrow
    rw [show (⟨row.id, row.name, row.headquarters⟩ : TeamRow) = row from rfl,
      replaceById_self TeamRow.id i row db.teams hall]
  · intro db i row hnd hrow
    simp only [update_item, hrow, Option.getD_none]
    have hall := find?_id_all_eq ItemRow.id db.items i row hnd hrow
    rw [show (⟨row.id, row.name, row.price, row.is_offer, row.units,
        row.units_measurement⟩ : ItemRow) = row from rfl,
      replaceById_self ItemRow.id i row db.items hall]

/-- C6 witness: PATCH on team 1 of the sample database with only `name`
set changes only `name`, and an empty PATCH on item 1 changes nothing. -/
theorem c6_witness :
    ((update_team db1 1 { name := some "X" }).1).teams
      = replaceById TeamRow.id 1 ⟨1, "X", "NYC"⟩ db1.teams
    ∧ update_item db1 1 {} = (db1, .ok itemRow1.toPublic) :=
  ⟨(c6_patch_overwrites_only_set_fields.1 db1 1 { name := some "X" }
      teamRow1 rfl).1,
   c6_patch_overwrites_only_set_fields.2.2.2.2 db1 1 itemRow1
      (by decide) rfl⟩

/-- C7 counterexample: the claim says a list read with `limit` greater
than 100 "still succeeds and returns at most 100 rows".  In the code
`limit` is declared `Query(default=100, le=100)`, so `limit=101` is
rejected by request validation (HTTP 422) and does not succeed. -/
theorem c7_counterexample :
    read_teams dbEmpty 0 101 = .error .unprocessable
    ∧ read_items db1 0 101 = .error .unprocessable :=
  ⟨rfl, rfl⟩

/-- C7 amended: for GET /teams/ and GET /items/, `limit` defaults to 100
and `offset` to 0; a `limit` above 100 is rejected with a 422 validation
error rather than capped; a request with `0 ≤ limit ≤ 100` succeeds and
returns the insertion-order slice starting at `offset`, hence at most 100
rows.  GET /users/ is excluded: its response-model defect (C4) makes every
list read fail. -/
theorem c7_limit_rejected_above_100 :
    (∀ db : DB, read_teams_request db none none = read_teams db 0 100
      ∧ read_items_request db none none = read_items db 0 100)
    ∧ (∀ (db : DB) (offset limit : Int), 100 < limit →
        read_teams db offset limit = .error .unprocessable
        ∧ read_items db offset limit = .error .unprocessable)
    ∧ (∀ (db : DB) (offset limit : Int), 0 ≤ limit → limit ≤ 100 →
        read_teams db offset limit
          = .ok (((db.teams.drop offset.toNat).take limit.toNat).map
              TeamRow.toPublic)
        ∧ read_items db offset limit
          = .ok (((db.items.drop offset.toNat).take limit.toNat).map
              ItemRow.toPublic)
        ∧ ((db.teams.drop offset.toNat).take limit.toNat).length ≤ 100)
    ∧ (∀ (db : DB) (offset limit : Int), limit ≤ 100 →
        read_users db offset limit
          = .error (.internal "ResponseValidationError")) := by
  refine ⟨fun db => ⟨rfl, rfl⟩, ?_, ?_, ?_⟩
  · intro db offset limit h
    have hbad : limitOk limit = false := by
      simp [limitOk]; omega
    exact ⟨by simp [read_teams, hbad], by simp [read_items, hbad]⟩
  · intro db offset limit h0 h100
    have hok : limitOk limit = true := by simpa [limitOk] using h100
    have hnneg : ¬ limit < 0 := by omega
    refine ⟨by simp [read_teams, hok, listSlice, hnneg],
      by simp [read_items, hok, listSlice, hnneg], ?_⟩
    calc ((db.teams.drop offset.toNat).take limit.toNat).length
        ≤ limit.toNat := by
          exact List.length_take_le ..
      _ ≤ 100 := by omega
  · intro db offset limit h100
    have hok : limitOk limit = true := by simpa [limitOk] using h100
    simp [read_users, hok, fitUserPublic]

/-- C7 witness: on the one-row sample database, an explicit valid request
and a defaulted request both return the single team, and `limit=101` is a
validation error. -/
theorem c7_witness :
    read_teams db1 0 2 = .ok [teamRow1.toPublic]
    ∧ read_teams db1 3 101 = .error .unprocessable :=
  ⟨by
    have h := (c7_limit_rejected_above_100.2.2.1 db1 0 2 (by decide)
      (by decide)).1
    simpa [db1, teamRow1] using h,
   (c7_limit_rejected_above_100.2.1 db1 3 101 (by decide)).1⟩

/-- C8 counterexample: the claim says every Item create or update payload
with a price beyond 5 digits / 3 decimal places is rejected and no row is
modified.  `ItemUpdate.price` redeclares the field without the
constraints, so PATCH accepts `123456.789` (9 digits) and overwrites the
stored row with it. -/
theorem c8_counterexample :
    priceValid bigPrice = false
    ∧ update_item db1 1 { price := some bigPrice }
        = ({ db1 with items := [{ itemRow1 with price := bigPrice }] },
           .ok ⟨1, "nails", bigPrice, false, 10, "kg"⟩) := by
  constructor
  · rfl
  · simp [update_item, DB.getItem, db1, itemRow1, replaceById,
      ItemRow.toPublic, bigPrice]

/-- C8 amended: the 5-digit / 3-decimal-place price bound is enforced only
on creation payloads (`ItemCreate` inherits the constrained `ItemBase`
field): an out-of-bounds price makes POST /items/ fail with 422 and
inserts nothing, and an in-bounds price is accepted and stored verbatim.
Update payloads (`ItemUpdate`) carry no price constraint, and PATCH on an
existing item accepts any price. -/
theorem c8_price_bound_applies_to_create_only :
    (∀ (db : DB) (ic : ItemCreate), priceValid ic.price = false →
        create_item db ic = (db, .error .unprocessable))
    ∧ (∀ (db : DB) (ic : ItemCreate), priceValid ic.price = true →
        create_item db ic
          = ({ db with items := db.items ++ [⟨nextId (db.items.map
                ItemRow.id), ic.name, ic.price, ic.is_offer, ic.units,
                ic.units_measurement⟩] },
             .ok ⟨nextId (db.items.map ItemRow.id), ic.name, ic.price,
                ic.is_offer, ic.units, ic.units_measurement⟩))
    ∧ (∀ (db : DB) (i : Nat) (xu : ItemUpdate) (row : ItemRow),
        db.getItem i = some row →
        (update_item db i xu).2 ≠ .error .unprocessable) := by
  refine ⟨?_, ?_, ?_⟩
  · intro db ic h
    simp [create_item, h]
  · intro db ic h
    simp [create_item, h, ItemRow.toPublic]
  · intro db i xu row hrow
    simp [update_item, hrow]

/-- An in-bounds price, `1.2` (2 digits, 1 decimal place). -/
def smallPrice : PyDecimal := ⟨false, [1, 2], -1⟩

/-- A create payload carrying the out-of-bounds price. -/
def itemCreateBig : ItemCreate where
  name := "hammer"
  price := bigPrice
  units := 1
  units_measurement := "pc"

/-- A create payload carrying the in-bounds price. -/
def itemCreateSmall : ItemCreate where
  name := "hammer"
  price := smallPrice
  units := 1
  units_measurement := "pc"

/-- C8 witness: a 9-digit price is rejected on create with nothing
inserted, an in-bounds price is inserted verbatim, and the out-of-bounds
PATCH is not a validation error. -/
theorem c8_witness :
    create_item dbEmpty itemCreateBig = (dbEmpty, .error .unprocessable)
    ∧ create_item dbEmpty itemCreateSmall
        = ({ dbEmpty with items := [⟨1, "hammer", smallPrice, false, 1, "pc"⟩] },
           .ok ⟨1, "hammer", smallPrice, false, 1, "pc"⟩)
    ∧ (update_item db1 1 { price := some bigPrice }).2
        ≠ .error .unprocessable :=
  ⟨c8_price_bound_applies_to_create_only.1 dbEmpty itemCreateBig (by decide),
   by
    have h := c8_price_bound_applies_to_create_only.2.1 dbEmpty
      itemCreateSmall (by decide)
    simpa [dbEmpty, nextId, itemCreateSmall] using h,
   c8_price_bound_applies_to_create_only.2.2 db1 1
      { price := some bigPrice } itemRow1 rfl⟩

/-- C9: every successful POST returns the generated primary key — a
positive id, hence non-null — together with all submitted fields echoed
back unchanged; the user response echoes exactly the non-password fields
and carries no password field (`UserPublic` has none). -/
theorem c9_create_returns_id_and_echoes_fields :
    (∀ (db : DB) (tc : TeamCreate),
        create_team db tc
          = ({ db with teams := db.teams ++ [⟨nextId (db.teams.map
                TeamRow.id), tc.name, tc.headquarters⟩] },
             ⟨nextId (db.teams.map TeamRow.id), tc.name, tc.headquarters⟩)
        ∧ 0 < nextId (db.teams.map TeamRow.id))
    ∧ (∀ (hashF : String → String) (db : DB) (uc : UserCreate),
        (create_user hashF db uc).2
          = ⟨nextId (db.users.map UserRow.id), uc.name, uc.email, uc.age,
              uc.team_id⟩
        ∧ 0 < nextId (db.users.map UserRow.id))
    ∧ (∀ (db : DB) (ic : ItemCreate), priceValid ic.price = true →
        (create_item db ic).2
          = .ok ⟨nextId (db.items.map ItemRow.id), ic.name, ic.price,
              ic.is_offer, ic.units, ic.units_measurement⟩
        ∧ 0 < nextId (db.items.map ItemRow.id)) := by
  refine ⟨fun db tc => ⟨rfl, by unfold nextId; omega⟩,
    fun hashF db uc => ⟨rfl, by unfold nextId; omega⟩,
    fun db ic h => ⟨?_, by unfold nextId; omega⟩⟩
  simp [create_item, h, ItemRow.toPublic]

/-- C9 witness: creating an in-bounds item on the one-item sample database
returns id 2 with the submitted fields echoed. -/
theorem c9_witness :
    (create_item db1 itemCreateSmall).2
      = .ok ⟨2, "hammer", smallPrice, false, 1, "pc"⟩ := by
  have h := (c9_create_returns_id_and_echoes_fields.2.2 db1
    itemCreateSmall (by decide)).1
  simpa [db1, itemRow1, itemCreateSmall, nextId] using h

/-- C10: `ItemCreate` inherits `price: Decimal = Field(default=0, ...)`,
so a create payload that omits `price` parses with `price = Decimal(0)`,
the default passes the digit constraints, and the created item is stored
and echoed with price 0. -/
theorem c10_item_price_defaults_to_zero :
    (∀ (n m : String) (u : Int),
        ({ name := n, units := u, units_measurement := m } : ItemCreate).price
          = PyDecimal.zero)
    ∧ (∀ (db : DB) (n m : String) (u : Int),
        create_item db { name := n, units := u, units_measurement := m }
          = ({ db with items := db.items ++ [⟨nextId (db.items.map
                ItemRow.id), n, PyDecimal.zero, false, u, m⟩] },
             .ok ⟨nextId (db.items.map ItemRow.id), n, PyDecimal.zero,
                false, u, m⟩)) := by
  have hv : priceValid PyDecimal.zero = true := rfl
  exact ⟨fun n m u => rfl,
    fun db n m u => by simp [create_item, hv, ItemRow.toPublic]⟩

end FastApiPos
